import Mathlib

/-!
Verification development for the megabyte-labs/common-ansible repository.

Part 1 embeds scripts/quickstart.ps1 (the resumable Windows/WSL provisioning
workflow): the pending-reboot probe, the provisioning step functions and the
Provision-Windows-WSL-Ansible workflow body.  Host state is the registry,
file, feature and package configuration the script inspects and mutates.
Each step function returns the new host state together with a result in the
vocabulary of the design document (Success / Skipped / Failed), the number of
mutating host actions it performed, and the number of restarts it issued.

Part 2 embeds the generic WorkflowRunner and Checkpoint Store of the design
document.  The source workflow delegates resume-after-reboot to the
PowerShell workflow engine, so the explicit runner is modelled from the
specification text, as its doc comments note.

Part 3 embeds the program detectors of
src/_generated_/common/.config/scripts/prompts/vagrant-up.js.
-/

/-- Result of executing one provisioning step. -/
inductive StepResult where
  | success
  | skipped
  | failed (reason : String)
  deriving DecidableEq, BEq, Repr

/-- Whether a result is the Failed outcome. -/
def StepResult.isFailure : StepResult → Bool
  | .failed _ => true
  | _ => false

/-- Host configuration observed and mutated by scripts/quickstart.ps1.
The field ccmQuery models the optional CCM_ClientUtilities management agent:
none stands for an absent or throwing WMI class and also for a null status
object, some b for a status object whose RebootPending field equals b.
The field pendingUpdateBatches counts the update batches Get-WUInstall can
still discover; some updates only become discoverable after a previous batch
has been installed. -/
structure HostState where
  cbsRebootPending : Bool
  wuRebootRequired : Bool
  pendingFileRename : Bool
  ccmQuery : Option Bool
  pendingUpdateBatches : Nat
  wslFeatureEnabled : Bool
  vmPlatformEnabled : Bool
  ubuntuAppxFile : Bool
  ubuntuAppxInstalled : Bool
  wslConfigured : Bool
  dockerInstallerFile : Bool
  dockerInstalled : Bool
  winrmConfigured : Bool
  playbookRun : Bool
  deriving DecidableEq, Repr

/-- Embeds Test-PendingReboot (quickstart.ps1 lines 19-31): four signals
checked in order, each early-returning 1 (true here).  The management-agent
query sits in a try block with an empty catch, so an unavailable class, a
thrown query or a null status all fall through to the final return 0. -/
def testPendingReboot (s : HostState) : Bool :=
  if s.cbsRebootPending then true
  else if s.wuRebootRequired then true
  else if s.pendingFileRename then true
  else
    match s.ccmQuery with
    | some status => status
    | none => false

/-- Modelled from the spec: Get-WUInstall -AcceptAll -IgnoreReboot comes from
the external PSWindowsUpdate module, not from this repository.  It installs
the currently discoverable batch of updates; an installed batch requires a
reboot, and further batches only become discoverable after it. -/
def getWUInstall (s : HostState) : HostState :=
  if s.pendingUpdateBatches = 0 then s
  else { s with pendingUpdateBatches := s.pendingUpdateBatches - 1,
                wuRebootRequired := true }

/-- Modelled from the spec: Restart-Computer is an external cmdlet.  The
restart lets the operating system finish pending servicing, update and
file-rename operations, clearing those markers; the state of the optional
management agent is external to the host restart and unchanged by it. -/
def restartComputer (s : HostState) : HostState :=
  { s with cbsRebootPending := false, wuRebootRequired := false,
           pendingFileRename := false }

/-- Outcome of one provisioning function of quickstart.ps1: the host state it
leaves behind, its result in the vocabulary of the design document, how many
mutating host actions it performed, and how many restarts it issued. -/
structure StepTrace where
  state : HostState
  result : StepResult
  mutations : Nat
  reboots : Nat
  deriving DecidableEq, Repr

/-- Embeds EnsureWindowsUpdated (lines 34-44): runs Get-WUInstall, then tests
for a pending reboot and restarts at most once.  The local variable
rebootrequired of the function is function-scoped in PowerShell and does not
reach the workflow scope. -/
def ensureWindowsUpdated (s : HostState) : StepTrace :=
  let s1 := getWUInstall s
  let m := if s.pendingUpdateBatches = 0 then 0 else 1
  if testPendingReboot s1 then
    { state := restartComputer s1, result := .success, mutations := m, reboots := 1 }
  else
    { state := s1, result := .success, mutations := m, reboots := 0 }

/-- Embeds EnsureLinuxSubsystemEnabled (lines 47-60): if the feature state is
Disabled it enables the feature with -NoRestart (one mutating action),
otherwise it only prints and moves on.  The assignment rebootrequired = 1 in
the enabling branch is function-local in PowerShell and therefore invisible
at workflow scope. -/
def ensureLinuxSubsystemEnabled (s : HostState) : StepTrace :=
  if s.wslFeatureEnabled = false then
    { state := { s with wslFeatureEnabled := true }, result := .success,
      mutations := 1, reboots := 0 }
  else
    { state := s, result := .skipped, mutations := 0, reboots := 0 }

/-- Embeds EnsureVirtualMachinePlatformEnabled (lines 63-76), analogous to
the Linux-subsystem step, including the function-local rebootrequired = 1. -/
def ensureVirtualMachinePlatformEnabled (s : HostState) : StepTrace :=
  if s.vmPlatformEnabled = false then
    { state := { s with vmPlatformEnabled := true }, result := .success,
      mutations := 1, reboots := 0 }
  else
    { state := s, result := .skipped, mutations := 0, reboots := 0 }

/-- Embeds EnsureUbuntuAPPXInstalled (lines 79-101): downloads the appx image
unless the file is already present, then installs the appx package unless
Get-AppxPackage already reports it. -/
def ensureUbuntuAPPXInstalled (s : HostState) : StepTrace :=
  let d := if s.ubuntuAppxFile = false then
             ({ s with ubuntuAppxFile := true }, 1)
           else (s, 0)
  let i := if d.1.ubuntuAppxInstalled then (d.1, 0)
           else ({ d.1 with ubuntuAppxInstalled := true }, 1)
  { state := i.1,
    result := if s.ubuntuAppxFile && s.ubuntuAppxInstalled then .skipped else .success,
    mutations := d.2 + i.2, reboots := 0 }

/-- Embeds SetupUbuntuWSL (lines 104-126): five unconditional ubuntu.exe
invocations (root install, adduser, usermod, sudoers append, default user);
no capability check of any kind. -/
def setupUbuntuWSL (s : HostState) : StepTrace :=
  { state := { s with wslConfigured := true }, result := .success,
    mutations := 5, reboots := 0 }

/-- Embeds EnsureDockerDesktopInstalled (lines 129-146): downloads the
installer only if the file is absent, but then always runs the installer and
always launches Docker Desktop; there is no check of whether Docker Desktop
is already installed. -/
def ensureDockerDesktopInstalled (s : HostState) : StepTrace :=
  let d := if s.dockerInstallerFile = false then
             ({ s with dockerInstallerFile := true }, 1)
           else (s, 0)
  { state := { d.1 with dockerInstalled := true }, result := .success,
    mutations := d.2 + 2, reboots := 0 }

/-- Embeds EnableWinRM (lines 149-154): downloads the ConfigureRemoting
script and runs it, both unconditionally. -/
def enableWinRM (s : HostState) : StepTrace :=
  { state := { s with winrmConfigured := true }, result := .success,
    mutations := 2, reboots := 0 }

/-- Embeds RunPlaybook (lines 157-160): two unconditional ubuntu.exe
invocations fetching and running the playbook. -/
def runPlaybook (s : HostState) : StepTrace :=
  { state := { s with playbookRun := true }, result := .success,
    mutations := 2, reboots := 0 }

/-- Accumulated trace of one invocation of the workflow body: final host
state, the executed step functions with their results in order, the total
number of mutating actions, the total number of restarts, and whether the
conditional workflow-level restart at line 174 fired. -/
structure WfAcc where
  state : HostState
  steps : List (String × StepResult)
  mutations : Nat
  reboots : Nat
  line174Reboot : Bool
  deriving DecidableEq, Repr

/-- Runs one provisioning function and appends its result to the trace. -/
def runStep (acc : WfAcc) (name : String) (f : HostState → StepTrace) : WfAcc :=
  let t := f acc.state
  { acc with state := t.state,
             steps := acc.steps ++ [(name, t.result)],
             mutations := acc.mutations + t.mutations,
             reboots := acc.reboots + t.reboots }

/-- Embeds the body of workflow Provision-Windows-WSL-Ansible (lines
164-183).  The two Install commands for the NuGet provider and the
PSWindowsUpdate module are the initial two mutating actions.  The variable
rebootrequired read at line 174 is the workflow-scope one: the script-scope
initialisation at line 16 is not visible inside the workflow runspace, and
the assignments inside the step functions are function-local, so at workflow
scope the value is never 1 and the conditional restart of lines 174-176 can
never fire; the restart at line 180 is unconditional. -/
def provisionWindowsWSLAnsible (s0 : HostState) : WfAcc :=
  let a0 : WfAcc := ⟨s0, [], 2, 0, false⟩
  let a1 := runStep a0 "EnsureWindowsUpdated" ensureWindowsUpdated
  let a2 := runStep a1 "EnsureWindowsUpdated" ensureWindowsUpdated
  let a3 := runStep a2 "EnsureWindowsUpdated" ensureWindowsUpdated
  let a4 := runStep a3 "EnableWinRM" enableWinRM
  let a5 := runStep a4 "EnsureLinuxSubsystemEnabled" ensureLinuxSubsystemEnabled
  let a6 := runStep a5 "EnsureVirtualMachinePlatformEnabled" ensureVirtualMachinePlatformEnabled
  let rebootrequired : Nat := 0
  let a7 : WfAcc :=
    if rebootrequired = 1 then
      { a6 with state := restartComputer a6.state, reboots := a6.reboots + 1,
                line174Reboot := true }
    else a6
  let a8 := runStep a7 "EnsureUbuntuAPPXInstalled" ensureUbuntuAPPXInstalled
  let a9 := runStep a8 "SetupUbuntuWSL" setupUbuntuWSL
  let a10 := runStep a9 "EnsureDockerDesktopInstalled" ensureDockerDesktopInstalled
  let a11 : WfAcc := { a10 with state := restartComputer a10.state,
                                reboots := a10.reboots + 1 }
  runStep a11 "RunPlaybook" runPlaybook

/-- A bare host: nothing enabled, nothing installed, no pending-reboot
markers, no management agent, no discoverable updates. -/
def freshHost : HostState :=
  { cbsRebootPending := false, wuRebootRequired := false,
    pendingFileRename := false, ccmQuery := none, pendingUpdateBatches := 0,
    wslFeatureEnabled := false, vmPlatformEnabled := false,
    ubuntuAppxFile := false, ubuntuAppxInstalled := false,
    wslConfigured := false, dockerInstallerFile := false,
    dockerInstalled := false, winrmConfigured := false, playbookRun := false }

/-- The host state left behind by one complete run on a bare host. -/
def completedHost : HostState := (provisionWindowsWSLAnsible freshHost).state

/-- A host whose management agent persistently reports a pending reboot. -/
def ccmHost : HostState := { freshHost with ccmQuery := some true }

/-- A host whose only pending-reboot signal is the file-rename marker. -/
def pfroHost : HostState := { freshHost with pendingFileRename := true }

/-- A host without a management agent and with the update marker set. -/
def ccmAbsentHost : HostState := { freshHost with wuRebootRequired := true }

/-- State after the three consecutive EnsureWindowsUpdated invocations of
workflow lines 167-170. -/
def updatePhase (s : HostState) : HostState :=
  (ensureWindowsUpdated
    (ensureWindowsUpdated (ensureWindowsUpdated s).state).state).state

/-- Shell environment for the vagrant-up.js detectors: for each command
line, whether it exits with status zero. -/
abbrev CmdEnv := String → Bool

/-- Embeds execSync with the options object of vagrant-up.js lines 18-20
(stdio ignore): on a zero exit the captured output is null, modelled as
none; a non-zero exit makes execSync throw, modelled as Except.error. -/
def execSync (env : CmdEnv) (cmd : String) : Except Unit (Option String) :=
  if env cmd then Except.ok none else Except.error ()

/-- Embeds the exec helper of vagrant-up.js line 33. -/
def exec (env : CmdEnv) (cmd : String) : Except Unit (Option String) :=
  execSync env cmd

/-- JavaScript Boolean() applied to a value exec can yield: null is falsy
and a string is truthy unless empty. -/
def jsBoolean : Option String → Bool
  | none => false
  | some out => out != ""

/-- The command string probed by isUnixInstalled. -/
def unixCheckCmd (program : String) : String :=
  "hash " ++ program ++ " 2>/dev/null"

/-- Embeds isUnixInstalled (vagrant-up.js lines 49-51). -/
def isUnixInstalled (env : CmdEnv) (program : String) : Except Unit Bool :=
  (exec env (unixCheckCmd program)).map jsBoolean

/-- The command string probed by isMacInstalled. -/
def macCheckCmd (program : String) : String :=
  "osascript -e \x27id of application \"" ++ program ++ "\"\x27 2>&1>/dev/null"

/-- Embeds isMacInstalled (vagrant-up.js lines 83-85). -/
def isMacInstalled (env : CmdEnv) (program : String) : Except Unit Bool :=
  (exec env (macCheckCmd program)).map jsBoolean

/-- The four where attempts probed by isWindowsInstalled. -/
def windowsCheckCmds (program : String) : List String :=
  ["where " ++ program, "where " ++ program ++ ".exe",
   "where.exe " ++ program, "where.exe " ++ program ++ ".exe"]

/-- Embeds isWindowsInstalled (vagrant-up.js lines 93-101): Array.map
evaluates every attempt, and the first thrown error propagates; otherwise
the step checks whether any attempt was truthy. -/
def isWindowsInstalled (env : CmdEnv) (program : String) : Except Unit Bool := do
  let results ← (windowsCheckCmds program).mapM
    (fun attempt => (exec env attempt).map jsBoolean)
  return results.contains true

/-- The suffix test endsWith of .desktop, computed on the character list;
the last eight characters are compared with the suffix. -/
def endsWithDesktop (file : String) : Bool :=
  file.data.reverse.take 8 == (".desktop".data.reverse)

/-- The trailing .desktop dropped, as in the replace with the anchored
regular expression used twice in isDotDesktopInstalled. -/
def stripDesktop (file : String) : String :=
  if endsWithDesktop file then
    String.mk (file.data.take (file.data.length - 8))
  else file

/-- Embeds isDotDesktopInstalled (vagrant-up.js lines 59-75).  The entries
of the application directories (XDG_DATA_HOME, HOME/.local/share and the two
system paths) are modelled as one flat list of file names. -/
def isDotDesktopInstalled (entries : List String) (program : String) : Bool :=
  let desktopFiles := (entries.filter (fun f => endsWithDesktop f)).map stripDesktop
  desktopFiles.contains (stripDesktop program)

/-- Embeds isInstalled (vagrant-up.js lines 110-111): Array.some evaluates
the four checks left to right, short-circuits on the first truthy result and
propagates a thrown error from any check. -/
def isInstalled (env : CmdEnv) (entries : List String) (program : String) :
    Except Unit Bool := do
  let u ← isUnixInstalled env program
  if u then return true
  else
    let m ← isMacInstalled env program
    if m then return true
    else
      let w ← isWindowsInstalled env program
      if w then return true
      else return (isDotDesktopInstalled entries program)

/-- An environment in which every probed command fails. -/
def envNone : CmdEnv := fun _ => false

/-- An environment in which every probed command succeeds. -/
def envAll : CmdEnv := fun _ => true

/-- Modelled from the spec: reboot policy of a Step.  The source workflow
delegates resume-after-reboot to the PowerShell workflow engine, so the
explicit WorkflowRunner and Checkpoint Store of the design document are not
in the source tree and are modelled from the specification text here. -/
inductive RebootPolicy where
  | never
  | ifChanged
  | always
  deriving DecidableEq, BEq, Repr

/-- Modelled from the spec: a Step record over an abstract host-state type:
a name, a side-effecting action producing a result and a new state, and a
reboot policy. -/
structure WStep (σ : Type) where
  name : String
  action : σ → StepResult × σ
  rebootPolicy : RebootPolicy

/-- Modelled from the spec: the persisted Checkpoint record. -/
structure Checkpoint where
  nextStepIndex : Nat
  updateRetryCount : Nat
  deriving DecidableEq, Repr

/-- Terminal phase of a runner invocation. -/
inductive RunnerPhase where
  | completed
  | awaitingReboot
  | aborted
  deriving DecidableEq, Repr

/-- Outcome of a single runner invocation: the indices of the steps it
executed in order, the persisted next step index, the phase it ended in and
the final host state. -/
structure InvOutcome (σ : Type) where
  execIdx : List Nat
  next : Nat
  phase : RunnerPhase
  state : σ

/-- Outcome of a whole multi-invocation run. -/
structure RunOutcome (σ : Type) where
  execIdx : List Nat
  phase : RunnerPhase
  state : σ

/-- Modelled from the spec: whether a reboot must be issued after a step
completed with the given result, under the given policy, when the probe
reports probePending. -/
def needsReboot (policy : RebootPolicy) (res : StepResult) (probePending : Bool) :
    Bool :=
  policy == .always || (policy == .ifChanged && res == .success) || probePending

/-- Modelled from the spec: the Running loop of the WorkflowRunner, executing
the steps of rest, the suffix of the sequence from index i, until a failure,
a reboot decision, or the end of the sequence.  On Failed the invocation
aborts; on a reboot decision the next index i + 1 is persisted and the
invocation ends in AwaitingReboot. -/
def runAux {σ : Type} (probe : σ → Bool) :
    List (WStep σ) → Nat → σ → InvOutcome σ
  | [], i, s => ⟨[], i, .completed, s⟩
  | st :: rest, i, s =>
    let res := (st.action s).1
    let s1 := (st.action s).2
    if res.isFailure then ⟨[i], i, .aborted, s1⟩
    else if needsReboot st.rebootPolicy res (probe s1) then
      ⟨[i], i + 1, .awaitingReboot, s1⟩
    else
      let o := runAux probe rest (i + 1) s1
      ⟨i :: o.execIdx, o.next, o.phase, o.state⟩

/-- Modelled from the spec: one process invocation of the WorkflowRunner.
If the checkpoint already points past the end the run completes immediately;
on an abort the checkpoint is persisted unchanged so the same step is
retried on the next manual invocation. -/
def runInvocation {σ : Type} (probe : σ → Bool) (steps : List (WStep σ))
    (cp : Checkpoint) (s : σ) : InvOutcome σ :=
  if steps.length ≤ cp.nextStepIndex then ⟨[], cp.nextStepIndex, .completed, s⟩
  else
    let o := runAux probe (steps.drop cp.nextStepIndex) cp.nextStepIndex s
    if o.phase = .aborted then ⟨o.execIdx, cp.nextStepIndex, .aborted, o.state⟩
    else o

/-- Modelled from the spec: the whole multi-invocation run.  After an
AwaitingReboot termination the host restarts (its effect on the state is
eff) and re-invokes the same entry point; fuel bounds the number of
invocations. -/
def multiRun {σ : Type} (probe : σ → Bool) (eff : σ → σ)
    (steps : List (WStep σ)) : Nat → Checkpoint → σ → RunOutcome σ
  | 0, _, s => ⟨[], .aborted, s⟩
  | fuel + 1, cp, s =>
    let o := runInvocation probe steps cp s
    if o.phase = .awaitingReboot then
      let r := multiRun probe eff steps fuel ⟨o.next, cp.updateRetryCount⟩
        (eff o.state)
      ⟨o.execIdx ++ r.execIdx, r.phase, r.state⟩
    else ⟨o.execIdx, o.phase, o.state⟩

/-- No step of the sequence can return Failed from any state. -/
def NoFail {σ : Type} (steps : List (WStep σ)) : Prop :=
  ∀ st ∈ steps, ∀ s : σ, ((st.action s).1).isFailure = false

/-- A concrete three-step sequence over a numeric host state, used to
exercise the runner on explicit inputs. -/
def stepsW : List (WStep Nat) :=
  [⟨"enable", fun n => (StepResult.success, n + 1), .ifChanged⟩,
   ⟨"check", fun n => (StepResult.skipped, n), .never⟩,
   ⟨"install", fun n => (StepResult.success, n + 1), .always⟩]

/-- The constantly false probe used with stepsW. -/
def probeW : Nat → Bool := fun _ => false

/-- The restart effect used with stepsW. -/
def effW : Nat → Nat := fun n => n

/-- A bare host has no pending-reboot signal. -/
theorem testPendingReboot_freshHost : testPendingReboot freshHost = false := by
  decide

/-- Claim C3: for every host state, if any one of the four reboot signals
(component-servicing marker, update-reboot-required marker,
pending-file-rename marker, management-agent query) is true, then
Test-PendingReboot returns true, regardless of the other three. -/
theorem testPendingReboot_conservative (s : HostState)
    (h : s.cbsRebootPending = true ∨ s.wuRebootRequired = true ∨
         s.pendingFileRename = true ∨ s.ccmQuery = some true) :
    testPendingReboot s = true := by
  rcases h with h | h | h | h <;> simp [testPendingReboot, h]

/-- Witness for C3: a host whose only signal is the pending-file-rename
marker is reported as pending. -/
theorem testPendingReboot_conservative_witness :
    testPendingReboot pfroHost = true :=
  testPendingReboot_conservative pfroHost (Or.inr (Or.inr (Or.inl (by decide))))

/-- Claim C6: if the optional management-agent query is unavailable or throws
(ccmQuery = none, caught by the empty catch block), Test-PendingReboot
treats that signal as false and the other three signals alone decide the
result; no exception escalates since the function stays total. -/
theorem testPendingReboot_ccm_safeDefault (s : HostState)
    (h : s.ccmQuery = none) :
    testPendingReboot s =
      (s.cbsRebootPending || s.wuRebootRequired || s.pendingFileRename) := by
  rcases s with ⟨cbs, wu, pfro, ccm, u, f1, f2, f3, f4, f5, f6, f7, f8, f9⟩
  simp only at h
  subst h
  cases cbs <;> cases wu <;> cases pfro <;> simp [testPendingReboot]

/-- Witness for C6: a host without a management agent but with the update
marker set is reported as pending by the other signals alone. -/
theorem testPendingReboot_ccm_safeDefault_witness :
    testPendingReboot ccmAbsentHost = true :=
  (testPendingReboot_ccm_safeDefault ccmAbsentHost (by decide)).trans (by decide)

/-- Claim C8: no single execution of any of the eight provisioning functions of
quickstart.ps1 issues more than one restart: EnsureWindowsUpdated restarts
at most once, every other function issues none. -/
theorem step_reboots_atMostOnce (s : HostState) :
    (ensureWindowsUpdated s).reboots ≤ 1 ∧
    (enableWinRM s).reboots = 0 ∧
    (ensureLinuxSubsystemEnabled s).reboots = 0 ∧
    (ensureVirtualMachinePlatformEnabled s).reboots = 0 ∧
    (ensureUbuntuAPPXInstalled s).reboots = 0 ∧
    (setupUbuntuWSL s).reboots = 0 ∧
    (ensureDockerDesktopInstalled s).reboots = 0 ∧
    (runPlaybook s).reboots = 0 := by
  refine ⟨?_, rfl, ?_, ?_, rfl, rfl, rfl, rfl⟩
  · simp only [ensureWindowsUpdated]
    split <;> simp
  · simp only [ensureLinuxSubsystemEnabled]
    split <;> rfl
  · simp only [ensureVirtualMachinePlatformEnabled]
    split <;> rfl

/-- Counterexample for C2: re-running the workflow on the host state left by
a completed run still performs mutating actions, and not every step is
skipped. -/
theorem provision_rerun_mutates :
    (provisionWindowsWSLAnsible completedHost).mutations ≠ 0 ∧
    ((provisionWindowsWSLAnsible completedHost).steps.all
      (fun p => p.2 == StepResult.skipped)) = false := by
  decide

/-- Claim C2 as amended: re-running after full completion leaves the host state
unchanged and skips the three capability-guarded steps, but the module
installs, EnableWinRM, SetupUbuntuWSL, EnsureDockerDesktopInstalled and
RunPlaybook act unconditionally, so the second run performs 13 mutating
actions rather than zero. -/
theorem provision_rerun_partiallyIdempotent :
    (provisionWindowsWSLAnsible completedHost).steps =
      [("EnsureWindowsUpdated", .success), ("EnsureWindowsUpdated", .success),
       ("EnsureWindowsUpdated", .success), ("EnableWinRM", .success),
       ("EnsureLinuxSubsystemEnabled", .skipped),
       ("EnsureVirtualMachinePlatformEnabled", .skipped),
       ("EnsureUbuntuAPPXInstalled", .skipped),
       ("SetupUbuntuWSL", .success), ("EnsureDockerDesktopInstalled", .success),
       ("RunPlaybook", .success)] ∧
    (provisionWindowsWSLAnsible completedHost).state = completedHost ∧
    (provisionWindowsWSLAnsible completedHost).mutations = 13 := by
  decide

/-- Counterexample for C4: on a host whose management agent persistently
reports a pending reboot, the three bounded EnsureWindowsUpdated passes end
with the probe still reporting pending, yet the workflow silently executes
all later steps and no step ever yields a Failed result. -/
theorem updateRetry_silentlyProceeds :
    testPendingReboot (updatePhase ccmHost) = true ∧
    (provisionWindowsWSLAnsible ccmHost).steps.map Prod.fst =
      ["EnsureWindowsUpdated", "EnsureWindowsUpdated", "EnsureWindowsUpdated",
       "EnableWinRM", "EnsureLinuxSubsystemEnabled",
       "EnsureVirtualMachinePlatformEnabled", "EnsureUbuntuAPPXInstalled",
       "SetupUbuntuWSL", "EnsureDockerDesktopInstalled", "RunPlaybook"] ∧
    ((provisionWindowsWSLAnsible ccmHost).steps.all
      (fun p => !(p.2.isFailure))) = true := by
  decide

/-- Success is not the Failed outcome. -/
theorem isFailure_success : StepResult.success.isFailure = false := rfl

/-- Skipped is not the Failed outcome. -/
theorem isFailure_skipped : StepResult.skipped.isFailure = false := rfl

/-- The update step always reports Success, never Failed. -/
theorem ensureWindowsUpdated_result (s : HostState) :
    (ensureWindowsUpdated s).result = .success := by
  simp only [ensureWindowsUpdated]
  split <;> rfl

/-- The Linux-subsystem step never reports Failed. -/
theorem ensureLinuxSubsystemEnabled_notFailed (s : HostState) :
    ((ensureLinuxSubsystemEnabled s).result).isFailure = false := by
  simp only [ensureLinuxSubsystemEnabled]
  split <;> rfl

/-- The virtual-machine-platform step never reports Failed. -/
theorem ensureVirtualMachinePlatformEnabled_notFailed (s : HostState) :
    ((ensureVirtualMachinePlatformEnabled s).result).isFailure = false := by
  simp only [ensureVirtualMachinePlatformEnabled]
  split <;> rfl

/-- The Ubuntu-appx step never reports Failed. -/
theorem ensureUbuntuAPPXInstalled_notFailed (s : HostState) :
    ((ensureUbuntuAPPXInstalled s).result).isFailure = false := by
  simp only [ensureUbuntuAPPXInstalled]
  split <;> rfl

/-- Claim C4 as amended: from any host state the workflow invokes the update step
exactly three times, a fixed bound, so the bounded retry terminates; but
exceeding the bound never yields Failed: the workflow proceeds through all
later steps and no step of any run reports a Failed result. -/
theorem updateRetry_bounded (s : HostState) :
    (provisionWindowsWSLAnsible s).steps.map Prod.fst =
      ["EnsureWindowsUpdated", "EnsureWindowsUpdated", "EnsureWindowsUpdated",
       "EnableWinRM", "EnsureLinuxSubsystemEnabled",
       "EnsureVirtualMachinePlatformEnabled", "EnsureUbuntuAPPXInstalled",
       "SetupUbuntuWSL", "EnsureDockerDesktopInstalled", "RunPlaybook"] ∧
    ((provisionWindowsWSLAnsible s).steps.all
      (fun p => !(p.2.isFailure))) = true := by
  simp [provisionWindowsWSLAnsible, runStep, ensureWindowsUpdated_result,
        ensureLinuxSubsystemEnabled_notFailed,
        ensureVirtualMachinePlatformEnabled_notFailed,
        ensureUbuntuAPPXInstalled_notFailed,
        setupUbuntuWSL, ensureDockerDesktopInstalled, enableWinRM, runPlaybook,
        isFailure_success, isFailure_skipped]

/-- Claim C5 as evaluated on the code: on a fresh host the Linux-subsystem step
runs with result Success, yet the conditional workflow restart at line 174
never fires (the rebootrequired flag set inside the function is
function-local in PowerShell), so all later steps execute with the only
restart being the unconditional one after Docker Desktop. -/
theorem featureEnable_restart_neverFires :
    freshHost.wslFeatureEnabled = false ∧
    (provisionWindowsWSLAnsible freshHost).steps =
      [("EnsureWindowsUpdated", .success), ("EnsureWindowsUpdated", .success),
       ("EnsureWindowsUpdated", .success), ("EnableWinRM", .success),
       ("EnsureLinuxSubsystemEnabled", .success),
       ("EnsureVirtualMachinePlatformEnabled", .success),
       ("EnsureUbuntuAPPXInstalled", .success), ("SetupUbuntuWSL", .success),
       ("EnsureDockerDesktopInstalled", .success), ("RunPlaybook", .success)] ∧
    (provisionWindowsWSLAnsible freshHost).line174Reboot = false ∧
    (provisionWindowsWSLAnsible freshHost).reboots = 1 := by
  decide

/-- Counterexample for C7: SetupUbuntuWSL consults no capability check; on a
host where the WSL environment is already fully configured it still reports
Success and performs its five mutating actions. -/
theorem setupUbuntuWSL_violatesSkipContract :
    completedHost.wslConfigured = true ∧
    (setupUbuntuWSL completedHost).result = StepResult.success ∧
    (setupUbuntuWSL completedHost).mutations = 5 := by
  decide

/-- Claim C7 as amended: the three capability-guarded steps (Linux subsystem,
virtual-machine platform, Ubuntu appx) return Skipped with zero mutating
actions and an unchanged host when their capability is already satisfied,
but SetupUbuntuWSL and EnsureDockerDesktopInstalled have no capability check
and always perform mutating actions. -/
theorem skipContract_guardedSteps (s : HostState)
    (h1 : s.wslFeatureEnabled = true) (h2 : s.vmPlatformEnabled = true)
    (h3 : s.ubuntuAppxFile = true) (h4 : s.ubuntuAppxInstalled = true) :
    ensureLinuxSubsystemEnabled s = ⟨s, .skipped, 0, 0⟩ ∧
    ensureVirtualMachinePlatformEnabled s = ⟨s, .skipped, 0, 0⟩ ∧
    ensureUbuntuAPPXInstalled s = ⟨s, .skipped, 0, 0⟩ ∧
    (setupUbuntuWSL s).mutations ≠ 0 ∧
    (ensureDockerDesktopInstalled s).mutations ≠ 0 := by
  refine ⟨?_, ?_, ?_, ?_, ?_⟩
  · simp [ensureLinuxSubsystemEnabled, h1]
  · simp [ensureVirtualMachinePlatformEnabled, h2]
  · simp [ensureUbuntuAPPXInstalled, h3, h4]
  · simp [setupUbuntuWSL]
  · simp only [ensureDockerDesktopInstalled]
    split <;> simp

/-- Witness for C7 as amended: on the completed host the guarded steps skip
without mutation while the unguarded ones still mutate. -/
theorem skipContract_guardedSteps_witness :
    ensureLinuxSubsystemEnabled completedHost = ⟨completedHost, .skipped, 0, 0⟩ ∧
    ensureVirtualMachinePlatformEnabled completedHost =
      ⟨completedHost, .skipped, 0, 0⟩ ∧
    ensureUbuntuAPPXInstalled completedHost = ⟨completedHost, .skipped, 0, 0⟩ ∧
    (setupUbuntuWSL completedHost).mutations ≠ 0 ∧
    (ensureDockerDesktopInstalled completedHost).mutations ≠ 0 :=
  skipContract_guardedSteps completedHost (by decide) (by decide) (by decide)
    (by decide)

/-- Counterexample for C9: in an environment where every probed command
fails, isUnixInstalled does not return false: execSync throws and the error
propagates through isUnixInstalled and isInstalled to the caller. -/
theorem isUnixInstalled_propagatesError :
    isUnixInstalled envNone "virtualbox" = Except.error () ∧
    isInstalled envNone [] "virtualbox" = Except.error () :=
  ⟨rfl, rfl⟩

/-- Claim C9 as amended: when the underlying detection command of a program fails
(exits non-zero), execSync throws, and the error propagates out of
isUnixInstalled and isInstalled to the caller instead of being treated as
false. -/
theorem detectorFailure_propagates (env : CmdEnv) (entries : List String)
    (program : String) (h : env (unixCheckCmd program) = false) :
    isUnixInstalled env program = Except.error () ∧
    isInstalled env entries program = Except.error () := by
  have hu : isUnixInstalled env program = Except.error () := by
    simp [isUnixInstalled, exec, execSync, h, Except.map]
  refine ⟨hu, ?_⟩
  simp [isInstalled, hu, Bind.bind, Except.bind]

/-- Witness for C9 as amended: with every command failing, the error reaches
the caller of both detectors. -/
theorem detectorFailure_propagates_witness :
    isUnixInstalled envNone "vagrant" = Except.error () ∧
    isInstalled envNone [] "vagrant" = Except.error () :=
  detectorFailure_propagates envNone [] "vagrant" rfl

/-- Claim C10: when the probing commands of a program all succeed, the
command-based detectors return false, because execSync with ignored stdio
yields null and Boolean(null) is false; consequently isInstalled can report
true only through the .desktop-file check. -/
theorem commandDetectors_returnFalse (env : CmdEnv) (entries : List String)
    (program : String)
    (hu : env (unixCheckCmd program) = true)
    (hm : env (macCheckCmd program) = true)
    (hw1 : env ("where " ++ program) = true)
    (hw2 : env ("where " ++ program ++ ".exe") = true)
    (hw3 : env ("where.exe " ++ program) = true)
    (hw4 : env ("where.exe " ++ program ++ ".exe") = true) :
    isUnixInstalled env program = Except.ok false ∧
    isMacInstalled env program = Except.ok false ∧
    isWindowsInstalled env program = Except.ok false ∧
    isInstalled env entries program =
      Except.ok (isDotDesktopInstalled entries program) := by
  have h1 : isUnixInstalled env program = Except.ok false := by
    simp [isUnixInstalled, exec, execSync, hu, Except.map, jsBoolean]
  have h2 : isMacInstalled env program = Except.ok false := by
    simp [isMacInstalled, exec, execSync, hm, Except.map, jsBoolean]
  have h3 : isWindowsInstalled env program = Except.ok false := by
    simp only [isWindowsInstalled, windowsCheckCmds, List.mapM,
               List.mapM.loop, Bind.bind, Except.bind, exec, execSync,
               hw1, hw2, hw3, hw4]
    rfl
  refine ⟨h1, h2, h3, ?_⟩
  simp [isInstalled, h1, h2, h3, Bind.bind, Except.bind, Pure.pure,
        Except.pure]

/-- Witness for C10: with every command succeeding, a program is reported as
installed exactly through its .desktop entry. -/
theorem commandDetectors_returnFalse_witness :
    isInstalled envAll ["virtualbox.desktop"] "virtualbox" = Except.ok true :=
  ((commandDetectors_returnFalse envAll ["virtualbox.desktop"] "virtualbox"
      rfl rfl rfl rfl rfl rfl).2.2.2).trans (congrArg Except.ok (by decide))

/-- Under a no-failure step sequence the Running loop either completes,
executing exactly the indices from i to the end of the suffix, or stops at a
reboot decision after executing exactly the indices from i to some step m of
the suffix, persisting the index after it. -/
theorem runAux_noFail {σ : Type} (probe : σ → Bool) :
    ∀ (rest : List (WStep σ)),
      (∀ st ∈ rest, ∀ s : σ, ((st.action s).1).isFailure = false) →
      ∀ (i : Nat) (s : σ),
        ((runAux probe rest i s).phase = RunnerPhase.completed ∧
         (runAux probe rest i s).execIdx = List.range' i rest.length ∧
         (runAux probe rest i s).next = i + rest.length) ∨
        ((runAux probe rest i s).phase = RunnerPhase.awaitingReboot ∧
         ∃ m, m < rest.length ∧
           (runAux probe rest i s).execIdx = List.range' i (m + 1) ∧
           (runAux probe rest i s).next = i + m + 1) := by
  intro rest
  induction rest with
  | nil =>
    intro _ i s
    left
    simp [runAux]
  | cons st rest ih =>
    intro h i s
    have hst : ((st.action s).1).isFailure = false :=
      h st (List.mem_cons_self st rest) s
    have hrest : ∀ st2 ∈ rest, ∀ s2 : σ, ((st2.action s2).1).isFailure = false :=
      fun st2 hm s2 => h st2 (List.mem_cons_of_mem st hm) s2
    by_cases hrb : needsReboot st.rebootPolicy ((st.action s).1)
        (probe ((st.action s).2)) = true
    · right
      refine ⟨?_, 0, by simp, ?_, ?_⟩
      · simp [runAux, hst, hrb]
      · simp [runAux, hst, hrb]
      · simp [runAux, hst, hrb]
    · rw [Bool.not_eq_true] at hrb
      rcases ih hrest (i + 1) ((st.action s).2) with ⟨hp, he, hn⟩ | ⟨hp, m, hm, he, hn⟩
      · left
        refine ⟨?_, ?_, ?_⟩
        · simp [runAux, hst, hrb, hp]
        · simp [runAux, hst, hrb, he, List.range'_succ]
        · simp only [runAux, hst, hrb, Bool.false_eq_true, if_false,
                     List.length_cons]
          simp [hn]
          omega
      · right
        refine ⟨?_, m + 1, by simpa using Nat.succ_lt_succ hm, ?_, ?_⟩
        · simp [runAux, hst, hrb, hp]
        · simp [runAux, hst, hrb, he, List.range'_succ]
        · simp only [runAux, hst, hrb, Bool.false_eq_true, if_false]
          simp [hn]
          omega

/-- Under a no-failure step sequence, a multi-invocation run with enough
fuel completes and executes exactly the indices from the checkpoint to the
end of the sequence. -/
theorem multiRun_noFail {σ : Type} (probe : σ → Bool) (eff : σ → σ)
    (steps : List (WStep σ)) (hnf : NoFail steps) :
    ∀ (fuel : Nat) (cp : Checkpoint) (s : σ),
      steps.length - cp.nextStepIndex < fuel →
      cp.nextStepIndex ≤ steps.length →
      (multiRun probe eff steps fuel cp s).execIdx =
        List.range' cp.nextStepIndex (steps.length - cp.nextStepIndex) ∧
      (multiRun probe eff steps fuel cp s).phase = RunnerPhase.completed := by
  intro fuel
  induction fuel with
  | zero =>
    intro cp s h1 _
    omega
  | succ fuel ih =>
    intro cp s hfuel hle
    by_cases hdone : steps.length ≤ cp.nextStepIndex
    · have hsub : steps.length - cp.nextStepIndex = 0 :=
        Nat.sub_eq_zero_of_le hdone
      refine ⟨?_, ?_⟩ <;> simp [multiRun, runInvocation, hdone, hsub]
    · have hdone' : ¬ steps.length ≤ cp.nextStepIndex := hdone
      have hlt : cp.nextStepIndex < steps.length := Nat.lt_of_not_le hdone
      have hnf2 : ∀ st ∈ steps.drop cp.nextStepIndex, ∀ s2 : σ,
          ((st.action s2).1).isFailure = false :=
        fun st hm s2 => hnf st (List.drop_subset _ _ hm) s2
      rcases runAux_noFail probe (steps.drop cp.nextStepIndex) hnf2
          cp.nextStepIndex s with ⟨hp, he, hn⟩ | ⟨hp, m, hm, he, hn⟩
      · refine ⟨?_, ?_⟩ <;>
          simp [multiRun, runInvocation, hdone', hp, he, hn]
      · have hm' : m < steps.length - cp.nextStepIndex := by
          simpa using hm
        have hrec := ih ⟨cp.nextStepIndex + m + 1, cp.updateRetryCount⟩
          (eff ((runAux probe (steps.drop cp.nextStepIndex)
            cp.nextStepIndex s).state))
          (show steps.length - (cp.nextStepIndex + m + 1) < fuel by omega)
          (show cp.nextStepIndex + m + 1 ≤ steps.length by omega)
        have hap := List.range'_append_1 cp.nextStepIndex (m + 1)
          (steps.length - (cp.nextStepIndex + m + 1))
        have hx1 : cp.nextStepIndex + (m + 1) = cp.nextStepIndex + m + 1 := by
          omega
        have hx2 : steps.length - (cp.nextStepIndex + m + 1) + (m + 1) =
            steps.length - cp.nextStepIndex := by
          omega
        rw [hx1, hx2] at hap
        refine ⟨?_, ?_⟩
        · simp only [multiRun, runInvocation]
          rw [if_neg hdone', hp]
          rw [if_neg (show ¬(RunnerPhase.awaitingReboot = RunnerPhase.aborted)
            by simp)]
          rw [hp, if_pos rfl, he, hn, hrec.1]
          exact hap
        · simp only [multiRun, runInvocation]
          rw [if_neg hdone', hp]
          rw [if_neg (show ¬(RunnerPhase.awaitingReboot = RunnerPhase.aborted)
            by simp)]
          rw [hp, if_pos rfl, hn]
          exact hrec.2

/-- Claim C1 (spec-modelled): for every k below the number of steps, if the
Checkpoint Store holds nextStepIndex = k before invocation, the
multi-invocation run executes exactly the step indices k to the end, in
order, and never executes an index below k. -/
theorem resume_correctness {σ : Type} (probe : σ → Bool) (eff : σ → σ)
    (steps : List (WStep σ)) (k : Nat) (s : σ)
    (hk : k < steps.length) (hnf : NoFail steps) :
    (multiRun probe eff steps (steps.length + 1) ⟨k, 0⟩ s).execIdx =
      List.range' k (steps.length - k) ∧
    (∀ j ∈ (multiRun probe eff steps (steps.length + 1) ⟨k, 0⟩ s).execIdx,
      k ≤ j) ∧
    (multiRun probe eff steps (steps.length + 1) ⟨k, 0⟩ s).phase =
      RunnerPhase.completed := by
  have h1 : steps.length - k < steps.length + 1 := by omega
  have h2 : k ≤ steps.length := Nat.le_of_lt hk
  have h := multiRun_noFail probe eff steps hnf (steps.length + 1) ⟨k, 0⟩ s h1 h2
  refine ⟨h.1, ?_, h.2⟩
  intro j hj
  rw [h.1] at hj
  exact (List.mem_range'_1.mp hj).1

/-- Witness for C1: seeding the checkpoint of the three-step sequence with
index 1 executes exactly the indices 1 and 2. -/
theorem resume_correctness_witness :
    1 < stepsW.length ∧
    (multiRun probeW effW stepsW (stepsW.length + 1) ⟨1, 0⟩ 0).execIdx =
      List.range' 1 (stepsW.length - 1) :=
  ⟨by decide,
   (resume_correctness probeW effW stepsW 1 0 (by decide)
     (by
       intro st hst s
       simp [stepsW] at hst
       rcases hst with h | h | h <;> subst h <;> rfl)).1⟩
